import Mathlib

/-!
Verification of the Snowflake adapter (`sqlit/db/adapters/snowflake.py`).

The adapter is embedded shallowly: SQL text evaluation against the
backend is modelled by executable Lean functions over an explicit
catalog/cursor state, and each adapter method is translated directly
from the Python source.
-/

namespace Sqlit

/-! ### Identifier quoting

`quote_identifier` in the source is `name.replace('"', '""')` wrapped in
double quotes.  The single-character replacement is embedded as a
character-level traversal. -/

/-- Character-level embedding of `name.replace('"', '""')`: every double
quote is doubled, all other characters are kept. -/
def escapeQuotes : List Char → List Char
  | [] => []
  | c :: cs => if c = '"' then '"' :: '"' :: escapeQuotes cs else c :: escapeQuotes cs

/-- Embedding of `SnowflakeAdapter.quote_identifier`: escape embedded
double quotes and wrap the result in double quotes. -/
def quote_identifier (name : String) : String :=
  "\"" ++ String.mk (escapeQuotes name.data) ++ "\""

/-- Inverse direction used to state the round-trip law: collapse each
doubled double quote back into a single one. -/
def collapseQuotes : List Char → List Char
  | [] => []
  | [c] => [c]
  | c :: d :: cs =>
    if c = '"' ∧ d = '"' then '"' :: collapseQuotes cs
    else c :: collapseQuotes (d :: cs)

/-- Embedding of `SnowflakeAdapter.default_schema` (the property returns
the constant string). -/
def default_schema : String := "PUBLIC"

/-- Embedding of `SnowflakeAdapter.build_select_query`.  The source reads
`schema = schema or "PUBLIC"` followed by the f-string
`f'SELECT * FROM "{schema}"."{table}" LIMIT {limit}'`: the schema and
table are interpolated directly between literal double quotes, without
going through `quote_identifier`. -/
def build_select_query (table : String) (limit : Int)
    (database : Option String := none) (schema : Option String := none) : String :=
  let schema := schema.getD "PUBLIC"
  let _ := database
  "SELECT * FROM \"" ++ schema ++ "\".\"" ++ table ++ "\" LIMIT " ++ toString limit

/-! ### Lemmas about quoting -/

lemma escapeQuotes_eq_nil_iff (l : List Char) : escapeQuotes l = [] ↔ l = [] := by
  cases l with
  | nil => simp [escapeQuotes]
  | cons c cs =>
    constructor
    · intro h
      by_cases hc : c = '"' <;> simp [escapeQuotes, hc] at h
    · intro h
      exact absurd h (by simp)

lemma collapseQuotes_escapeQuotes (l : List Char) :
    collapseQuotes (escapeQuotes l) = l := by
  induction l with
  | nil => rfl
  | cons c cs ih =>
    by_cases hc : c = '"'
    · subst hc
      cases hcs : escapeQuotes cs with
      | nil => simp [escapeQuotes, collapseQuotes, ← hcs, ih]
      | cons d rest => simp [escapeQuotes, collapseQuotes, ← hcs, ih]
    · cases hcs : escapeQuotes cs with
      | nil =>
        have : cs = [] := (escapeQuotes_eq_nil_iff cs).mp hcs
        subst this
        simp [escapeQuotes, collapseQuotes, hc]
      | cons d rest =>
        rw [show escapeQuotes (c :: cs) = c :: escapeQuotes cs from by simp [escapeQuotes, hc]]
        rw [hcs]
        simp only [collapseQuotes, hc, false_and, if_false]
        rw [← hcs, ih]

lemma quote_identifier_data (name : String) :
    (quote_identifier name).data = '"' :: (escapeQuotes name.data ++ ['"']) := by
  simp [quote_identifier, String.data_append]

/-! ### Theorems for the quoting claims -/

/-- C2: `quote_identifier` doubles every embedded double quote and wraps
the result in double quotes; stripping the outer quotes and collapsing
each doubled quote yields back exactly the original string, and in
particular `quote_identifier "first\"name" = "\"first\"\"name\""`. -/
theorem quote_identifier_round_trip (name : String) :
    String.mk (collapseQuotes (((quote_identifier name).data.drop 1).dropLast)) = name ∧
    quote_identifier "first\"name" = "\"first\"\"name\"" := by
  constructor
  · rw [quote_identifier_data]
    simp only [List.drop_succ_cons, List.drop_zero, List.dropLast_concat]
    rw [collapseQuotes_escapeQuotes]
  · rfl

/-- C1 (code bug evidence): at the concrete table name `a"b`,
`build_select_query` emits the embedded quote unescaped, which differs
from the string built with `quote_identifier` on every identifier
component as the specification requires. -/
theorem build_select_query_bypasses_quote_identifier :
    build_select_query "a\"b" 1 none none = "SELECT * FROM \"PUBLIC\".\"a\"b\" LIMIT 1" ∧
    "SELECT * FROM " ++ quote_identifier "PUBLIC" ++ "." ++
        quote_identifier "a\"b" ++ " LIMIT 1" =
      "SELECT * FROM \"PUBLIC\".\"a\"\"b\" LIMIT 1" ∧
    build_select_query "a\"b" 1 none none ≠
      "SELECT * FROM " ++ quote_identifier "PUBLIC" ++ "." ++
        quote_identifier "a\"b" ++ " LIMIT 1" := by
  refine ⟨by decide, by decide, by decide⟩

/-- C10 (amended part): the output of `build_select_query` is completely
independent of the `database` argument — for every pair of database
values the generated SQL string is identical, so the database argument
is never interpolated into the query. -/
theorem build_select_query_ignores_database (table : String) (limit : Int)
    (schema d₁ d₂ : Option String) :
    build_select_query table limit d₁ schema = build_select_query table limit d₂ schema := rfl

/-- C10 (counterexample to the literal claim): for the database value
`PUBLIC` the database name does occur as a substring of the generated
SQL (coinciding with the default schema), so "the database name never
appears in the generated SQL string" is false as literally stated. -/
theorem build_select_query_database_name_can_appear :
    ("PUBLIC".data <:+: (build_select_query "t" 1 (some "PUBLIC") none).data) ∧
    build_select_query "t" 1 (some "PUBLIC") none = build_select_query "t" 1 none none := by
  refine ⟨⟨"SELECT * FROM \"".data, "\".\"t\" LIMIT 1".data, by decide⟩, rfl⟩

/-! ### Cursor model and query execution

A DB-API cursor that has already executed a statement is modelled by the
result-set descriptor it exposes (`description`, absent for DDL), the
rows remaining to be fetched, and the reported `rowcount` (absent when
the backend cannot report one).  `fetchmany`/`fetchall` are the DB-API
fetch operations used by the adapter. -/

/-- One entry of a DB-API result-set descriptor; the adapter projects
`col[0]`, the column name. -/
structure Descriptor where
  name : String
  type_code : Nat
deriving DecidableEq, Repr

/-- A cursor after `cursor.execute(query)`, over row-value type `α`. -/
structure Cursor (α : Type) where
  description : Option (List Descriptor)
  rows : List (List α)
  rowcount : Option Int

/-- DB-API `cursor.fetchmany(size)`: at most `size` of the remaining rows. -/
def fetchmany (cur : Cursor α) (size : Nat) : List (List α) :=
  cur.rows.take size

/-- DB-API `cursor.fetchall()`: all remaining rows. -/
def fetchall (cur : Cursor α) : List (List α) :=
  cur.rows

/-- Embedding of `SnowflakeAdapter.execute_query` from the point where the
statement has been executed on the cursor.  `columns` is computed from the
descriptor when one is present (Python truthiness: `if cursor.description:`);
with `max_rows` set the adapter fetches `max_rows + 1` rows, reports
truncation when more than `max_rows` arrived and slices back to
`max_rows`; otherwise it fetches everything and never truncates. -/
def execute_query (cur : Cursor α) (max_rows : Option Nat := none) :
    List String × List (List α) × Bool :=
  let columns : List String :=
    match cur.description with
    | some d => if d.isEmpty then [] else d.map Descriptor.name
    | none => []
  match max_rows with
  | some k =>
    let rows := fetchmany cur (k + 1)
    let truncated := decide (rows.length > k)
    let rows := if truncated then rows.take k else rows
    (columns, rows, truncated)
  | none => (columns, fetchall cur, false)

/-- Embedding of `SnowflakeAdapter.execute_non_query`: the backend-reported
row count when present, else the sentinel `-1`. -/
def execute_non_query (cur : Cursor α) : Int :=
  match cur.rowcount with
  | some n => n
  | none => -1

/-! ### Theorems about query execution -/

/-- C3: with `max_rows = k` over a result set of `n` rows, `execute_query`
returns exactly `k` rows and `truncated = true` when `n > k`, and all `n`
rows with `truncated = false` when `n ≤ k`; it fetches at most `k + 1`
rows from the cursor; with `max_rows` omitted it returns all rows and
`truncated = false`. -/
theorem execute_query_truncation {α : Type} (cur : Cursor α) (k : Nat) :
    (cur.rows.length > k →
      (execute_query cur (some k)).2.1.length = k ∧
      (execute_query cur (some k)).2.2 = true) ∧
    (cur.rows.length ≤ k →
      (execute_query cur (some k)).2.1 = cur.rows ∧
      (execute_query cur (some k)).2.2 = false) ∧
    (fetchmany cur (k + 1)).length ≤ k + 1 ∧
    (execute_query cur none).2.1 = cur.rows ∧
    (execute_query cur none).2.2 = false := by
  refine ⟨?_, ?_, by simp [fetchmany, List.length_take], rfl, rfl⟩
  · intro hn
    have hlen : (cur.rows.take (k + 1)).length = k + 1 := by
      simp [List.length_take]
      omega
    have htr : decide ((cur.rows.take (k + 1)).length > k) = true := by
      simp [hlen]
    constructor
    · simp only [execute_query, fetchmany, htr, if_true]
      simp [List.length_take]
      omega
    · simp only [execute_query, fetchmany, htr]
  · intro hn
    have hlen : (cur.rows.take (k + 1)).length = cur.rows.length := by
      simp [List.length_take]
      omega
    have htr : decide ((cur.rows.take (k + 1)).length > k) = false := by
      simp [hlen]
      omega
    constructor
    · simp only [execute_query, fetchmany, htr, Bool.false_eq_true, if_false]
      exact List.take_of_length_le (by omega)
    · simp only [execute_query, fetchmany, htr]

/-- Witness for C3 at a concrete cursor with 3 rows and `max_rows = 2`. -/
theorem execute_query_truncation_witness :
    ((Cursor.mk none [[1], [2], [3]] none : Cursor Nat).rows.length > 2 ∧
      (execute_query (Cursor.mk none [[1], [2], [3]] none : Cursor Nat) (some 2)).2.1.length = 2 ∧
      (execute_query (Cursor.mk none [[1], [2], [3]] none : Cursor Nat) (some 2)).2.2 = true) ∧
    ((Cursor.mk none [[1], [2]] none : Cursor Nat).rows.length ≤ 2 ∧
      (execute_query (Cursor.mk none [[1], [2]] none : Cursor Nat) (some 2)).2.1 = [[1], [2]] ∧
      (execute_query (Cursor.mk none [[1], [2]] none : Cursor Nat) (some 2)).2.2 = false) := by
  refine ⟨⟨by decide, (execute_query_truncation (Cursor.mk none [[1], [2], [3]] none) 2).1 (by decide)⟩,
    by decide, ?_, ?_⟩
  · exact ((execute_query_truncation (Cursor.mk none [[1], [2]] none) 2).2.1 (by decide)).1
  · exact ((execute_query_truncation (Cursor.mk none [[1], [2]] none) 2).2.1 (by decide)).2

/-- C8: when the cursor exposes no result-set descriptor (e.g. DDL) the
returned column-name sequence is empty rather than an error; when a
descriptor is present the column names are exactly the descriptor's
names in order. -/
theorem execute_query_columns {α : Type} (cur : Cursor α) (max_rows : Option Nat) :
    (cur.description = none → (execute_query cur max_rows).1 = []) ∧
    (∀ d, cur.description = some d →
      (execute_query cur max_rows).1 = d.map Descriptor.name) := by
  constructor
  · intro h
    cases max_rows <;> simp [execute_query, h]
  · intro d h
    cases hd : d.isEmpty
    · cases max_rows <;> simp [execute_query, h, hd]
    · have : d = [] := by simpa [List.isEmpty_iff] using hd
      subst this
      cases max_rows <;> simp [execute_query, h]

/-- Witness for C8: a descriptor-less cursor yields no columns, and a
cursor with a two-column descriptor yields exactly those names. -/
theorem execute_query_columns_witness :
    ((Cursor.mk none ([] : List (List Nat)) none).description = none ∧
      (execute_query (Cursor.mk none ([] : List (List Nat)) none) none).1 = []) ∧
    ((Cursor.mk (some [⟨"A", 0⟩, ⟨"B", 1⟩]) ([] : List (List Nat)) none).description =
        some [⟨"A", 0⟩, ⟨"B", 1⟩] ∧
      (execute_query (Cursor.mk (some [⟨"A", 0⟩, ⟨"B", 1⟩]) ([] : List (List Nat)) none) none).1 =
        ["A", "B"]) := by
  refine ⟨⟨rfl, (execute_query_columns (Cursor.mk none ([] : List (List Nat)) none) none).1 rfl⟩,
    rfl, ?_⟩
  exact (execute_query_columns
    (Cursor.mk (some [⟨"A", 0⟩, ⟨"B", 1⟩]) ([] : List (List Nat)) none) none).2
    [⟨"A", 0⟩, ⟨"B", 1⟩] rfl

/-- C9: `execute_non_query` returns the backend-reported affected-row
count when one is reported, and the sentinel `-1` when `rowcount` is
absent; being a total function it never raises for that reason. -/
theorem execute_non_query_sentinel {α : Type} (cur : Cursor α) :
    (∀ n, cur.rowcount = some n → execute_non_query cur = n) ∧
    (cur.rowcount = none → execute_non_query cur = -1) := by
  constructor
  · intro n h
    simp [execute_non_query, h]
  · intro h
    simp [execute_non_query, h]

/-- Witness for C9 at a cursor reporting 5 affected rows and at one
reporting no row count. -/
theorem execute_non_query_sentinel_witness :
    ((Cursor.mk none ([] : List (List Nat)) (some 5)).rowcount = some 5 ∧
      execute_non_query (Cursor.mk none ([] : List (List Nat)) (some 5)) = 5) ∧
    ((Cursor.mk none ([] : List (List Nat)) none).rowcount = none ∧
      execute_non_query (Cursor.mk none ([] : List (List Nat)) none) = -1) := by
  refine ⟨⟨rfl, (execute_non_query_sentinel (Cursor.mk none ([] : List (List Nat)) (some 5))).1 5 rfl⟩,
    rfl, (execute_non_query_sentinel (Cursor.mk none ([] : List (List Nat)) none)).2 rfl⟩

/-! ### Catalog model and table listing

The information-schema views consulted by the adapter are modelled as
explicit catalogs carried by the connection; the `database` argument
selects which database's catalog is addressed (the `db_prefix`
qualification in the source).  Executing one of the adapter's catalog
queries is modelled by filtering and sorting the catalog exactly as the
SQL text does. -/

/-- A row of `information_schema.tables`. -/
structure InfoTableRow where
  table_schema : String
  table_name : String
  table_type : String
deriving DecidableEq, Repr

/-- A row of the `SHOW TABLES` output; the adapter projects `row[1]`
(`name`) and `row[3]` (`schema_name`). -/
structure ShowTableRow where
  created_on : String
  name : String
  database_name : String
  schema_name : String
deriving DecidableEq, Repr

/-- A row of `information_schema.columns` restricted to the selected
fields. -/
structure InfoColumnRow where
  table_schema : String
  table_name : String
  column_name : String
  data_type : String
  ordinal_position : Nat
deriving DecidableEq, Repr

/-- A row of `information_schema.table_constraints`. -/
structure TableConstraintRow where
  constraint_name : String
  table_schema : String
  table_name : String
  constraint_type : String
deriving DecidableEq, Repr

/-- A row of `information_schema.key_column_usage`. -/
structure KeyColumnUsageRow where
  constraint_name : String
  table_schema : String
  column_name : String
deriving DecidableEq, Repr

/-- The `TableInfo` tuples of the source are `(schema, name)` pairs. -/
abbrev TableInfo := String × String

/-- `ColumnInfo` as constructed by `get_columns`. -/
structure ColumnInfo where
  name : String
  data_type : String
  is_primary_key : Bool
deriving DecidableEq, Repr

/-- The source's `IndexInfo` (never populated by this adapter). -/
structure IndexInfo where
  name : String
deriving DecidableEq, Repr

/-- The source's `TriggerInfo` (never populated by this adapter). -/
structure TriggerInfo where
  name : String
deriving DecidableEq, Repr

/-- A connection, modelled by the catalogs its cursor can address; each
field is indexed by the optional database qualifier. -/
structure Conn where
  tablesCatalog : Option String → List InfoTableRow
  showTables : Option String → List ShowTableRow
  columnsCatalog : Option String → List InfoColumnRow
  tcCatalog : Option String → List TableConstraintRow
  kcuCatalog : Option String → List KeyColumnUsageRow

/-- SQL `ORDER BY table_schema, table_name` comparison on result pairs:
lexicographic, schema first, both components ascending. -/
def tableLE (a b : String × String) : Prop :=
  a.1 < b.1 ∨ (a.1 = b.1 ∧ a.2 ≤ b.2)

instance : DecidableRel tableLE := fun a b =>
  decidable_of_iff (a.1.toList < b.1.toList ∨ (a.1 = b.1 ∧ a.2.toList ≤ b.2.toList)) (by
    simp [tableLE, String.lt_iff_toList_lt, String.le_iff_toList_le])

/-- The same comparison lifted to `information_schema.tables` rows. -/
def rowLE (a b : InfoTableRow) : Prop :=
  tableLE (a.table_schema, a.table_name) (b.table_schema, b.table_name)

instance : DecidableRel rowLE := fun a b =>
  inferInstanceAs
    (Decidable (tableLE (a.table_schema, a.table_name) (b.table_schema, b.table_name)))

/-- Result of the SQL in `get_tables_via_info_schema`:
`SELECT table_schema, table_name FROM ..information_schema.tables WHERE
table_type = 'BASE TABLE' AND table_schema != 'INFORMATION_SCHEMA'
ORDER BY table_schema, table_name`.  The `ORDER BY` is modelled by a
(stable) sort under `rowLE`. -/
def tablesQuery (catalog : List InfoTableRow) : List InfoTableRow :=
  List.insertionSort rowLE (catalog.filter fun r =>
    r.table_type == "BASE TABLE" && r.table_schema != "INFORMATION_SCHEMA")

/-- Embedding of `SnowflakeAdapter.get_tables_via_info_schema`. -/
def get_tables_via_info_schema (conn : Conn) (database : Option String := none) :
    List TableInfo :=
  (tablesQuery (conn.tablesCatalog database)).map fun r => (r.table_schema, r.table_name)

/-- Embedding of the FIRST `get_tables` definition in the source (the
`SHOW TABLES` version, shadowed by the later definition of the same
name and therefore never callable). -/
def get_tables_shadowed (conn : Conn) (database : Option String := none) :
    List TableInfo :=
  (conn.showTables database).map fun r => (r.schema_name, r.name)

/-- Embedding of the SECOND (effective) `get_tables` definition: it
delegates to `get_tables_via_info_schema`. -/
def get_tables (conn : Conn) (database : Option String := none) : List TableInfo :=
  get_tables_via_info_schema conn database

/-- Embedding of `SnowflakeAdapter.get_indexes`: Snowflake has no
traditional indexes, the method unconditionally returns the empty list. -/
def get_indexes (conn : Conn) (database : Option String := none) : List IndexInfo :=
  let _ := conn
  let _ := database
  []

/-- Embedding of `SnowflakeAdapter.get_triggers`: triggers are not a
Snowflake concept, the method unconditionally returns the empty list. -/
def get_triggers (conn : Conn) (database : Option String := none) : List TriggerInfo :=
  let _ := conn
  let _ := database
  []

/-! ### Order lemmas for the table listing -/

instance : IsTotal (String × String) tableLE := by
  constructor
  intro a b
  rcases lt_trichotomy a.1 b.1 with h | h | h
  · exact Or.inl (Or.inl h)
  · rcases le_total a.2 b.2 with h2 | h2
    · exact Or.inl (Or.inr ⟨h, h2⟩)
    · exact Or.inr (Or.inr ⟨h.symm, h2⟩)
  · exact Or.inr (Or.inl h)

instance : IsTrans (String × String) tableLE := by
  constructor
  intro a b c hab hbc
  rcases hab with h1 | ⟨h1, h1'⟩ <;> rcases hbc with h2 | ⟨h2, h2'⟩
  · exact Or.inl (lt_trans h1 h2)
  · exact Or.inl (h2 ▸ h1)
  · exact Or.inl (h1 ▸ h2)
  · exact Or.inr ⟨h1.trans h2, le_trans h1' h2'⟩

instance : IsTotal InfoTableRow rowLE :=
  ⟨fun a b => IsTotal.total (r := tableLE)
    (a.table_schema, a.table_name) (b.table_schema, b.table_name)⟩

instance : IsTrans InfoTableRow rowLE :=
  ⟨fun _ _ _ hab hbc => IsTrans.trans (r := tableLE) _ _ _ hab hbc⟩

/-! ### Theorems about table listing -/

/-- C5: the effective `get_tables` (the later of the two same-named
definitions, which shadows the earlier `SHOW TABLES` version) is
extensionally equal to `get_tables_via_info_schema` on every connection
and database argument, and both are the information-schema route:
base-table rows with the `INFORMATION_SCHEMA` namespace excluded,
projected to `(table_schema, table_name)` pairs. -/
theorem get_tables_shadowing_refinement (conn : Conn) (database : Option String) :
    get_tables conn database = get_tables_via_info_schema conn database ∧
    get_tables conn database =
      (List.insertionSort rowLE ((conn.tablesCatalog database).filter fun r =>
          r.table_type == "BASE TABLE" && r.table_schema != "INFORMATION_SCHEMA")).map
        (fun r => (r.table_schema, r.table_name)) :=
  ⟨rfl, rfl⟩

/-- C6: every entry of `get_tables` comes from a base-table catalog row,
no entry lives in the `INFORMATION_SCHEMA` namespace, and the output is
sorted by schema then table name, ascending. -/
theorem get_tables_base_tables_sorted (conn : Conn) (database : Option String) :
    (∀ p ∈ get_tables conn database,
      ∃ r ∈ conn.tablesCatalog database,
        r.table_type = "BASE TABLE" ∧ r.table_schema ≠ "INFORMATION_SCHEMA" ∧
        p = (r.table_schema, r.table_name)) ∧
    (∀ p ∈ get_tables conn database, p.1 ≠ "INFORMATION_SCHEMA") ∧
    List.Sorted tableLE (get_tables conn database) := by
  refine ⟨?_, ?_, ?_⟩
  · intro p hp
    simp only [get_tables, get_tables_via_info_schema, tablesQuery, List.mem_map,
      List.mem_insertionSort, List.mem_filter, Bool.and_eq_true, beq_iff_eq, bne_iff_ne] at hp
    obtain ⟨r, ⟨hr, ht, hs⟩, hpr⟩ := hp
    exact ⟨r, hr, ht, hs, hpr.symm⟩
  · intro p hp
    simp only [get_tables, get_tables_via_info_schema, tablesQuery, List.mem_map,
      List.mem_insertionSort, List.mem_filter, Bool.and_eq_true, beq_iff_eq, bne_iff_ne] at hp
    obtain ⟨r, ⟨_, _, hs⟩, hpr⟩ := hp
    simpa [← hpr] using hs
  · have hs := List.sorted_insertionSort rowLE
      ((conn.tablesCatalog database).filter fun r =>
        r.table_type == "BASE TABLE" && r.table_schema != "INFORMATION_SCHEMA")
    exact List.Pairwise.map _ (fun _ _ h => h) hs

/-- C7: `get_indexes` and `get_triggers` return the empty sequence for
every connection and database argument (and, being total functions,
never raise). -/
theorem get_indexes_get_triggers_empty (conn : Conn) (database : Option String) :
    get_indexes conn database = [] ∧ get_triggers conn database = [] :=
  ⟨rfl, rfl⟩

/-- A small concrete connection used by the witnesses below. -/
def sampleConn : Conn where
  tablesCatalog := fun _ =>
    [⟨"PUBLIC", "orders", "BASE TABLE"⟩,
     ⟨"INFORMATION_SCHEMA", "TABLES", "BASE TABLE"⟩,
     ⟨"PUBLIC", "order_view", "VIEW"⟩,
     ⟨"APP", "events", "BASE TABLE"⟩]
  showTables := fun _ => []
  columnsCatalog := fun _ =>
    [⟨"PUBLIC", "orders", "id", "NUMBER", 1⟩,
     ⟨"PUBLIC", "orders", "region", "TEXT", 2⟩,
     ⟨"PUBLIC", "orders", "amount", "NUMBER", 3⟩,
     ⟨"PUBLIC", "other", "x", "TEXT", 1⟩]
  tcCatalog := fun _ =>
    [⟨"pk_orders", "PUBLIC", "orders", "PRIMARY KEY"⟩,
     ⟨"uq_orders", "PUBLIC", "orders", "UNIQUE"⟩]
  kcuCatalog := fun _ =>
    [⟨"pk_orders", "PUBLIC", "id"⟩,
     ⟨"pk_orders", "PUBLIC", "region"⟩,
     ⟨"uq_orders", "PUBLIC", "amount"⟩]

/-! ### Column listing and primary-key merge -/

/-- SQL `ORDER BY ordinal_position` comparison. -/
def ordinalLE (a b : InfoColumnRow) : Prop :=
  a.ordinal_position ≤ b.ordinal_position

instance : DecidableRel ordinalLE := fun a b =>
  inferInstanceAs (Decidable (a.ordinal_position ≤ b.ordinal_position))

instance : IsTotal InfoColumnRow ordinalLE :=
  ⟨fun a b => Nat.le_total a.ordinal_position b.ordinal_position⟩

instance : IsTrans InfoColumnRow ordinalLE :=
  ⟨fun _ _ _ hab hbc => Nat.le_trans hab hbc⟩

/-- Result of the first SQL in `get_columns`:
`SELECT column_name, data_type, ordinal_position FROM
..information_schema.columns WHERE table_schema = %s AND table_name = %s
ORDER BY ordinal_position`. -/
def columnsQuery (catalog : List InfoColumnRow) (schema table : String) :
    List InfoColumnRow :=
  List.insertionSort ordinalLE (catalog.filter fun r =>
    r.table_schema == schema && r.table_name == table)

/-- Result of the second SQL in `get_columns` (`pk_sql`): join
`table_constraints` with `key_column_usage` on constraint name and
schema, keep `PRIMARY KEY` constraints of the addressed table, and
project the key column names. -/
def pkQuery (tcs : List TableConstraintRow) (kcus : List KeyColumnUsageRow)
    (schema table : String) : List String :=
  (tcs.filter fun tc =>
      tc.constraint_type == "PRIMARY KEY" && tc.table_schema == schema &&
        tc.table_name == table).flatMap fun tc =>
    (kcus.filter fun kcu =>
        kcu.constraint_name == tc.constraint_name &&
          tc.table_schema == kcu.table_schema).map KeyColumnUsageRow.column_name

/-- The merge step of `get_columns`: each fetched column row becomes a
`ColumnInfo` whose primary-key flag is membership of its name in the
fetched key-column set (`row[0] in pk_columns`). -/
def get_columns_merge (rows : List InfoColumnRow) (pk_columns : List String) :
    List ColumnInfo :=
  rows.map fun r =>
    ⟨r.column_name, r.data_type, decide (r.column_name ∈ pk_columns)⟩

/-- Embedding of `SnowflakeAdapter.get_columns`: default the schema to
`PUBLIC`, run the two catalog queries, and merge by column name. -/
def get_columns (conn : Conn) (table : String)
    (database : Option String := none) (schema : Option String := none) :
    List ColumnInfo :=
  let schema := schema.getD "PUBLIC"
  get_columns_merge
    (columnsQuery (conn.columnsCatalog database) schema table)
    (pkQuery (conn.tcCatalog database) (conn.kcuCatalog database) schema table)

/-- C4: every column returned by `get_columns` is flagged as primary key
exactly when its name is in the key-column set reported by the separate
key-constraint query; the merge depends on the key-column result only
through set membership (invariant under permutation of its fetch order)
and permuting the fetched column rows only permutes the output without
changing any flag; the returned columns follow the column query's
ascending `ordinal_position` order. -/
theorem get_columns_pk_merge (conn : Conn) (table : String)
    (database schema : Option String) :
    (∀ c ∈ get_columns conn table database schema,
      (c.is_primary_key = true ↔
        c.name ∈ pkQuery (conn.tcCatalog database) (conn.kcuCatalog database)
          (schema.getD "PUBLIC") table)) ∧
    (∀ pk₂, pk₂.Perm (pkQuery (conn.tcCatalog database) (conn.kcuCatalog database)
        (schema.getD "PUBLIC") table) →
      get_columns_merge
          (columnsQuery (conn.columnsCatalog database) (schema.getD "PUBLIC") table) pk₂ =
        get_columns conn table database schema) ∧
    (∀ cols₂, cols₂.Perm
        (columnsQuery (conn.columnsCatalog database) (schema.getD "PUBLIC") table) →
      (get_columns_merge cols₂ (pkQuery (conn.tcCatalog database) (conn.kcuCatalog database)
          (schema.getD "PUBLIC") table)).Perm (get_columns conn table database schema)) ∧
    List.Sorted (· ≤ ·)
      ((columnsQuery (conn.columnsCatalog database) (schema.getD "PUBLIC") table).map
        InfoColumnRow.ordinal_position) := by
  refine ⟨?_, ?_, ?_, ?_⟩
  · intro c hc
    simp only [get_columns, get_columns_merge, List.mem_map] at hc
    obtain ⟨r, _, rfl⟩ := hc
    simp
  · intro pk₂ hperm
    simp only [get_columns, get_columns_merge]
    refine List.map_congr_left fun r _ => ?_
    have : decide (r.column_name ∈ pk₂) =
        decide (r.column_name ∈ pkQuery (conn.tcCatalog database)
          (conn.kcuCatalog database) (schema.getD "PUBLIC") table) :=
      decide_eq_decide.mpr hperm.mem_iff
    rw [this]
  · intro cols₂ hperm
    exact hperm.map _
  · have hs := List.sorted_insertionSort ordinalLE
      ((conn.columnsCatalog database).filter fun r =>
        r.table_schema == (schema.getD "PUBLIC") && r.table_name == table)
    exact List.Pairwise.map _ (fun _ _ h => h) hs

/-- Witness for C4 at `sampleConn`, table `orders`: the `id` column is
flagged as a key column, and feeding the key-column result in a
different fetch order leaves the output unchanged. -/
theorem get_columns_pk_merge_witness :
    ((⟨"id", "NUMBER", true⟩ : ColumnInfo) ∈ get_columns sampleConn "orders" none none) ∧
    ((⟨"id", "NUMBER", true⟩ : ColumnInfo).is_primary_key = true ↔
      "id" ∈ pkQuery (sampleConn.tcCatalog none) (sampleConn.kcuCatalog none)
        "PUBLIC" "orders") ∧
    (["region", "id"].Perm (pkQuery (sampleConn.tcCatalog none)
      (sampleConn.kcuCatalog none) "PUBLIC" "orders")) ∧
    (get_columns_merge
        (columnsQuery (sampleConn.columnsCatalog none) "PUBLIC" "orders")
        ["region", "id"] =
      get_columns sampleConn "orders" none none) :=
  ⟨by decide,
    (get_columns_pk_merge sampleConn "orders" none none).1 ⟨"id", "NUMBER", true⟩ (by decide),
    by decide,
    (get_columns_pk_merge sampleConn "orders" none none).2.1 ["region", "id"] (by decide)⟩

/-- Witness for C6 at `sampleConn`: the pair `("APP", "events")` is
listed and indeed originates from a base-table row outside the
information schema. -/
theorem get_tables_base_tables_sorted_witness :
    (("APP", "events") ∈ get_tables sampleConn none) ∧
    (∃ r ∈ sampleConn.tablesCatalog none,
      r.table_type = "BASE TABLE" ∧ r.table_schema ≠ "INFORMATION_SCHEMA" ∧
      (("APP", "events") : TableInfo) = (r.table_schema, r.table_name)) :=
  ⟨by decide, (get_tables_base_tables_sorted sampleConn none).1 ("APP", "events") (by decide)⟩

end Sqlit
